import Mathlib

/-!
Verification of the accessibility-scanner core logic: the finding scoring
and legal-risk classification in `backend/app/scanner.py`, and the payment
session / entitlement token state machine in `backend/app/payment.py`.

The Python code is shallowly embedded: dictionaries of findings become
structures, the in-memory session and token dictionaries become association
lists with dict-style insert (replace by key) and erase, timestamps become
seconds as `Nat`, and the external gateway result is passed as a boolean
parameter.
-/

namespace Scanner

/-- One axe-core violation record as consumed by `calculate_score` /
`count_by_severity`: `impact` is the value of the "impact" key (`none` when
the key is absent, mirroring `violation.get("impact")`), and `nodes` is
`len(violation.get("nodes", []))`. -/
structure AxeViolation where
  impact : Option String
  nodes : Nat
deriving Repr, DecidableEq

/-- One Playwright interactive-check record: `severity` is the value of the
"severity" key (`none` when absent). -/
structure PwCheck where
  severity : Option String
deriving Repr, DecidableEq

/-- The axe-core weight table of `calculate_score`:
`weights = {"critical": 10, "serious": 5, "moderate": 2, "minor": 1}` looked
up with `weights.get(impact, 2)`. -/
def axeWeight (impact : String) : Int :=
  if impact = "critical" then 10
  else if impact = "serious" then 5
  else if impact = "moderate" then 2
  else if impact = "minor" then 1
  else 2

/-- The Playwright weight table of `calculate_score`:
`{"critical": 15, "serious": 10, "moderate": 5, "minor": 2}` looked up with
`weights.get(severity, 5)`. -/
def pwWeight (severity : String) : Int :=
  if severity = "critical" then 15
  else if severity = "serious" then 10
  else if severity = "moderate" then 5
  else if severity = "minor" then 2
  else 5

/-- Per-violation deduction in the axe loop of `calculate_score`:
`weights.get(violation.get("impact", "moderate"), 2) * min(nodes_count, 5)`. -/
def axeDeduction (v : AxeViolation) : Int :=
  axeWeight (v.impact.getD "moderate") * min (v.nodes : Int) 5

/-- Per-check deduction in the Playwright loop of `calculate_score`:
`weights.get(check.get("severity", "moderate"), 5)`. -/
def pwDeduction (c : PwCheck) : Int :=
  pwWeight (c.severity.getD "moderate")

/-- Embedding of `calculate_score(axe_results, playwright_results)`: start at 100,
subtract the deduction of each axe violation and each Playwright check in
order, then clamp with `max(0, min(100, score))`. -/
def calculate_score (axe : List AxeViolation) (pw : List PwCheck) : Int :=
  let s1 := axe.foldl (fun s v => s - axeDeduction v) 100
  let s2 := pw.foldl (fun s c => s - pwDeduction c) s1
  max 0 (min 100 s2)

/-- Embedding of `count_by_severity(axe_results, playwright_results, severity)`: adds
`len(nodes)` for each axe violation whose "impact" equals `severity` exactly
(`violation.get("impact") == severity`), and 1 for each Playwright check
whose "severity" equals `severity` exactly. -/
def count_by_severity (axe : List AxeViolation) (pw : List PwCheck)
    (severity : String) : Nat :=
  let c1 := axe.foldl (fun n v => if v.impact = some severity then n + v.nodes else n) 0
  pw.foldl (fun n c => if c.severity = some severity then n + 1 else n) c1

/-- Result record of `assess_legal_risk` (the static Hebrew strings are kept
as in the source; `law_reference` is constant and omitted). -/
structure LegalRisk where
  level : String
  level_he : String
  estimated_fine : String
  critical_issues : Nat
  serious_issues : Nat
deriving Repr, DecidableEq

/-- Embedding of `assess_legal_risk(axe_results, playwright_results, standard)`:
`total_severe = critical_count + serious_count`; level "high" when
`total_severe >= 5`, "medium" when `total_severe >= 2`, else "low".
The `standard` argument is accepted but unused, as in the source. -/
def assess_legal_risk (axe : List AxeViolation) (pw : List PwCheck)
    (_standard : String) : LegalRisk :=
  let critical_count := count_by_severity axe pw "critical"
  let serious_count := count_by_severity axe pw "serious"
  let total_severe := critical_count + serious_count
  if total_severe ≥ 5 then
    { level := "high", level_he := "סיכון גבוה",
      estimated_fine := "₪50,000 - ₪150,000",
      critical_issues := critical_count, serious_issues := serious_count }
  else if total_severe ≥ 2 then
    { level := "medium", level_he := "סיכון בינוני",
      estimated_fine := "₪25,000 - ₪75,000",
      critical_issues := critical_count, serious_issues := serious_count }
  else
    { level := "low", level_he := "סיכון נמוך",
      estimated_fine := "₪0 - ₪25,000",
      critical_issues := critical_count, serious_issues := serious_count }

/-- Modelled from the spec (refinement comparison for the scoring formula):
the spec's per-finding deduction for a rule-engine-origin finding,
CRITICAL=10, SERIOUS=5, MODERATE=2, MINOR=1, multiplied by
`min(instance_count, 5)`. -/
def spec_rule_deduction (severity : String) (instance_count : Nat) : Int :=
  (if severity = "critical" then 10
   else if severity = "serious" then 5
   else if severity = "moderate" then 2
   else 1) * min (instance_count : Int) 5

/-- Modelled from the spec (refinement comparison for the scoring formula):
the spec's per-finding deduction for an interactive-check-origin finding,
CRITICAL=15, SERIOUS=10, MODERATE=5, MINOR=2, applied once regardless of
instance count. -/
def spec_interactive_deduction (severity : String) : Int :=
  if severity = "critical" then 15
  else if severity = "serious" then 10
  else if severity = "moderate" then 5
  else 2

/-- The four recognized severity strings. -/
def severityTiers : List String := ["critical", "serious", "moderate", "minor"]

end Scanner

namespace Payment

/-- One payment session record, the dict built by
`PaymentService.create_session` and mutated by `verify_session` /
`handle_webhook`. Timestamps are seconds as `Nat` (the source stores
ISO-8601 strings and compares elapsed seconds); `pdf_bytes` and
`meshulam_process_id` are set only through external collaborators and kept
as options. -/
structure Session where
  session_id : String
  scan_id : String
  url : String
  email : String
  amount : Nat
  status : String
  payment_url : Option String
  created_at : Nat
  completed_at : Option Nat
  pdf_token : Option String
  demo_mode : Bool
deriving Repr, DecidableEq

/-- Python truthiness of an optional string field
(`if session["pdf_token"]:` — `None` and `""` are falsy). -/
def strTruthy : Option String → Bool
  | none => false
  | some s => s ≠ ""

/-- Association-list lookup by key, the read side of a Python dict. -/
def alookup (k : String) : List (String × α) → Option α
  | [] => none
  | (k', v) :: rest => if k' = k then some v else alookup k rest

/-- Dict assignment `d[k] = v`: the key is unique afterwards and maps to `v`. -/
def dictInsert (k : String) (v : α) (l : List (String × α)) : List (String × α) :=
  (k, v) :: l.filter (fun p => p.1 ≠ k)

/-- Dict removal `del d[k]` / `d.pop(k, None)`. -/
def eraseKey (k : String) (l : List (String × α)) : List (String × α) :=
  l.filter (fun p => p.1 ≠ k)

/-- The mutable state of one `PaymentService` instance: `_sessions`
(session_id → session), `_tokens` (pdf_token → session_id) and the
`demo_mode` flag fixed at construction from the gateway credentials. -/
structure PaymentState where
  sessions : List (String × Session)
  tokens : List (String × String)
  demo_mode : Bool
deriving Repr, DecidableEq

/-- Response dict of `create_session` (always carries all three keys). -/
structure CreateResult where
  session_id : String
  payment_url : String
  demo_mode : Bool
deriving Repr, DecidableEq

/-- Response dict of `verify_session`. The `not_found` branch of the source
returns a dict without a "demo_mode" key, so the field is an `Option`:
`none` means the key is absent from the response. -/
structure VerifyResult where
  status : String
  pdf_token : Option String
  email : String
  scan_url : String
  demo_mode : Option Bool
deriving Repr, DecidableEq

/-- Embedding of `PaymentService._cleanup_expired`: drop sessions whose age exceeds
7200 seconds (2 h) and pop their (truthy) tokens. `now - created_at` is the
elapsed-seconds computation of the source. -/
def cleanup_expired (now : Nat) (st : PaymentState) : PaymentState :=
  let expired := st.sessions.filter (fun p => now - p.2.created_at > 7200)
  { st with
    sessions := st.sessions.filter (fun p => ¬ now - p.2.created_at > 7200),
    tokens := expired.foldl
      (fun ts p =>
        match p.2.pdf_token with
        | some t => if t = "" then ts else eraseKey t ts
        | none => ts)
      st.tokens }

/-- Embedding of `PaymentService.create_session(url, email, scan_id)`: sweep expired
sessions, then store a fresh PENDING session. `session_id` (the generated
`pay_<hex>` id) and `payment_url` (built by `_create_demo_payment` or the
Meshulam API call) are passed in as the outputs of the generator and the
gateway collaborator. -/
def create_session (st : PaymentState) (now : Nat)
    (session_id url email scan_id payment_url : String) (amount : Nat) :
    CreateResult × PaymentState :=
  let st := cleanup_expired now st
  let session : Session :=
    { session_id := session_id, scan_id := scan_id, url := url, email := email,
      amount := amount, status := "pending", payment_url := some payment_url,
      created_at := now, completed_at := none, pdf_token := none,
      demo_mode := st.demo_mode }
  ({ session_id := session_id, payment_url := payment_url, demo_mode := st.demo_mode },
   { st with sessions := dictInsert session_id session st.sessions })

/-- Embedding of `PaymentService.verify_session(session_id)`. `newToken` is the
`secrets.token_urlsafe(32)` value minted if the session completes now;
`gatewayOk` is the result of `_verify_meshulam_payment` (ignored in demo
mode, where `verified = True`). -/
def verify_session (st : PaymentState) (now : Nat) (session_id : String)
    (newToken : String) (gatewayOk : Bool) : VerifyResult × PaymentState :=
  match alookup session_id st.sessions with
  | none =>
    ({ status := "not_found", pdf_token := none, email := "", scan_url := "",
       demo_mode := none }, st)
  | some session =>
    if session.status = "completed" ∧ strTruthy session.pdf_token then
      ({ status := "completed", pdf_token := session.pdf_token,
         email := session.email, scan_url := session.url,
         demo_mode := some session.demo_mode }, st)
    else
      let verified := if st.demo_mode then true else gatewayOk
      if verified then
        let session' : Session :=
          { session with status := "completed", completed_at := some now,
                         pdf_token := some newToken }
        ({ status := "completed", pdf_token := some newToken,
           email := session.email, scan_url := session.url,
           demo_mode := some session.demo_mode },
         { st with sessions := dictInsert session_id session' st.sessions,
                   tokens := dictInsert newToken session_id st.tokens })
      else
        ({ status := "pending", pdf_token := none, email := session.email,
           scan_url := session.url, demo_mode := some session.demo_mode }, st)

/-- Embedding of `PaymentService.get_session_by_token(pdf_token)`: token → session_id →
session; `None` unless the session is COMPLETED; if `completed_at` is set
and more than 1800 s (30 min) have elapsed, the token mapping is deleted and
`None` returned, otherwise the session is returned (the token mapping is
untouched on success). -/
def get_session_by_token (st : PaymentState) (now : Nat) (pdf_token : String) :
    Option Session × PaymentState :=
  match alookup pdf_token st.tokens with
  | none => (none, st)
  | some session_id =>
    match alookup session_id st.sessions with
    | none => (none, st)
    | some session =>
      if session.status ≠ "completed" then (none, st)
      else
        match session.completed_at with
        | some c =>
          if now - c > 1800 then
            (none, { st with tokens := eraseKey pdf_token st.tokens })
          else (some session, st)
        | none => (some session, st)

/-- Embedding of `PaymentService.handle_webhook(data)`: `externalId` is
`data["customFields"]["cField1"]` (empty string when absent), `statusCode`
is `data["status"]`, `newToken` the token minted if this webhook completes
the session. Success code "1" on a non-completed session mints a token and
completes it; on an already completed session it is a no-op returning
`true`. -/
def handle_webhook (st : PaymentState) (now : Nat)
    (externalId statusCode newToken : String) : Bool × PaymentState :=
  if externalId = "" then (false, st)
  else
    match alookup externalId st.sessions with
    | none => (false, st)
    | some session =>
      if statusCode = "1" then
        if session.status ≠ "completed" then
          let session' : Session :=
            { session with status := "completed", completed_at := some now,
                           pdf_token := some newToken }
          (true, { st with sessions := dictInsert externalId session' st.sessions,
                           tokens := dictInsert newToken externalId st.tokens })
        else (true, st)
      else (false, st)

end Payment

open Scanner Payment

/-- Thirteen moderate violations with five affected nodes each: score drops
to 0 but neither critical nor serious counts rise. -/
def manyModerate : List AxeViolation := List.replicate 13 ⟨some "moderate", 5⟩

/-- A COMPLETED demo-mode session holding download token "tok_one",
completed at t = 0. -/
def completedSession : Session :=
  { session_id := "pay_aaaa", scan_id := "scan_1", url := "https://example.com",
    email := "a@b.c", amount := 79, status := "completed",
    payment_url := some "https://pay.example/redirect", created_at := 0,
    completed_at := some 0, pdf_token := some "tok_one", demo_mode := true }

/-- A demo-mode payment state holding exactly `completedSession` and its
token mapping. -/
def completedDemoState : PaymentState :=
  { sessions := [("pay_aaaa", completedSession)],
    tokens := [("tok_one", "pay_aaaa")], demo_mode := true }

/-- A demo-mode payment state with no sessions. -/
def emptyDemoState : PaymentState :=
  { sessions := [], tokens := [], demo_mode := true }

/-- A PENDING demo-mode session created at t = 0, no token yet. -/
def pendingSession : Session :=
  { session_id := "pay_p", scan_id := "scan_2", url := "https://example.org",
    email := "b@c.d", amount := 79, status := "pending",
    payment_url := some "https://pay.example/p", created_at := 0,
    completed_at := none, pdf_token := none, demo_mode := true }

/-- A demo-mode payment state holding exactly `pendingSession`. -/
def pendingDemoState : PaymentState :=
  { sessions := [("pay_p", pendingSession)], tokens := [], demo_mode := true }

/-- The session-level invariant of the spec's data model: `download_token`
(pdf_token) is non-null iff the status is COMPLETED, and `completed_at` is
non-null iff the status is COMPLETED. -/
abbrev SessionInv (s : Session) : Prop :=
  (s.pdf_token.isSome = true ↔ s.status = "completed")
  ∧ (s.completed_at.isSome = true ↔ s.status = "completed")

/-- The store-level invariant: every stored session satisfies `SessionInv`. -/
abbrev StoreInv (st : PaymentState) : Prop := ∀ p ∈ st.sessions, SessionInv p.2

theorem foldl_sub_eq (f : α → Int) (l : List α) (a : Int) :
    l.foldl (fun s x => s - f x) a = a - (l.map f).sum := by
  induction l generalizing a with
  | nil => simp
  | cons x xs ih => simp [List.foldl_cons, ih]; ring

theorem foldl_count_eq (p : α → Prop) [DecidablePred p] (g : α → Nat) (l : List α) (a : Nat) :
    l.foldl (fun n x => if p x then n + g x else n) a
      = a + (l.map (fun x => if p x then g x else 0)).sum := by
  induction l generalizing a with
  | nil => simp
  | cons x xs ih =>
    rw [List.foldl_cons, ih, List.map_cons, List.sum_cons]
    by_cases h : p x
    · simp only [if_pos h]; ring
    · simp only [if_neg h]; ring

/-- Rewriting `calculate_score` as clamped 100 minus a sum of per-item deductions. -/
theorem calculate_score_eq (axe : List AxeViolation) (pw : List PwCheck) :
    calculate_score axe pw
      = max 0 (min 100 (100 - ((axe.map axeDeduction).sum + (pw.map pwDeduction).sum))) := by
  simp only [calculate_score]
  rw [foldl_sub_eq, foldl_sub_eq]
  ring_nf

/-- Rewriting `count_by_severity` as a sum of per-item contributions. -/
theorem count_by_severity_eq (axe : List AxeViolation) (pw : List PwCheck) (sev : String) :
    count_by_severity axe pw sev
      = (axe.map (fun v => if v.impact = some sev then v.nodes else 0)).sum
        + (pw.map (fun c => if c.severity = some sev then 1 else 0)).sum := by
  simp only [count_by_severity]
  rw [foldl_count_eq (fun v : AxeViolation => v.impact = some sev) (fun v => v.nodes) axe 0]
  rw [foldl_count_eq (fun c : PwCheck => c.severity = some sev) (fun _ => 1) pw]
  ring_nf

theorem alookup_eraseKey_self (k : String) (l : List (String × α)) :
    alookup k (eraseKey k l) = none := by
  induction l with
  | nil => rfl
  | cons p rest ih =>
    by_cases h : p.1 = k
    · simpa [eraseKey, h] using ih
    · simpa [eraseKey, alookup, h] using ih

theorem mem_dictInsert (k : String) (v : α) (l : List (String × α))
    (p : String × α) (hp : p ∈ dictInsert k v l) : p = (k, v) ∨ p ∈ l := by
  rcases List.mem_cons.mp hp with h | h
  · exact Or.inl h
  · exact Or.inr (List.mem_of_mem_filter h)

theorem storeInv_insert (l : List (String × Session)) (k : String) (v : Session)
    (hl : ∀ p ∈ l, SessionInv p.2) (hv : SessionInv v) :
    ∀ p ∈ dictInsert k v l, SessionInv p.2 := by
  intro p hp
  rcases mem_dictInsert k v l p hp with h | h
  · rw [h]
    exact hv
  · exact hl p h

/-- C1 counterexample: a single CRITICAL-severity violation covering 5 DOM
nodes gives critical_count = 5, yet `assess_legal_risk` returns level
"high", not CRITICAL; moreover a finding set with score 0 (< 40) but no
critical/serious findings yields level "low", not HIGH — the code never
consults the score and has no CRITICAL tier. -/
theorem C1_counterexample :
    (count_by_severity [⟨some "critical", 5⟩] [] "critical" = 5
      ∧ (assess_legal_risk [⟨some "critical", 5⟩] [] "IL_5568").level = "high")
    ∧ (calculate_score manyModerate [] = 0
      ∧ (assess_legal_risk manyModerate [] "IL_5568").level = "low") := by
  constructor
  · exact ⟨rfl, rfl⟩
  · exact ⟨rfl, rfl⟩

/-- C1 (amended): `assess_legal_risk` ignores the score entirely; with
`total_severe` = critical_count + serious_count, the level is "high" when
total_severe ≥ 5, "medium" when total_severe ≥ 2, and "low" otherwise, and
no input ever produces a "critical" level. -/
theorem C1_assess_legal_risk_decision_table
    (axe : List AxeViolation) (pw : List PwCheck) (standard : String) :
    (assess_legal_risk axe pw standard).level =
      (if 5 ≤ count_by_severity axe pw "critical" + count_by_severity axe pw "serious"
       then "high"
       else if 2 ≤ count_by_severity axe pw "critical" + count_by_severity axe pw "serious"
       then "medium"
       else "low")
    ∧ (assess_legal_risk axe pw standard).level ≠ "critical" := by
  simp only [assess_legal_risk, ge_iff_le]
  constructor
  · split
    · rfl
    · split
      · rfl
      · rfl
  · split
    · exact ((by decide : ("high" : String) ≠ "critical") : _)
    · split
      · exact ((by decide : ("medium" : String) ≠ "critical") : _)
      · exact ((by decide : ("low" : String) ≠ "critical") : _)

/-- C2 counterexample: an axe violation with severity "critical" but zero
affected nodes deducts nothing (score stays 100, where a coerced
instance_count of 1 would deduct 10) and contributes 0 to the critical
count. -/
theorem C2_counterexample :
    calculate_score [⟨some "critical", 0⟩] [] = 100
    ∧ count_by_severity [⟨some "critical", 0⟩] [] "critical" = 0 := by
  exact ⟨rfl, rfl⟩

/-- C2 (amended): a rule-engine violation reporting zero affected DOM nodes
is weighted by zero, not coerced to 1 — prepending it changes neither the
score (its deduction is weight × min(0,5) = 0) nor any severity count (it
adds len(nodes) = 0). -/
theorem C2_zero_node_violation_weighted_zero
    (v : AxeViolation) (hv : v.nodes = 0)
    (axe : List AxeViolation) (pw : List PwCheck) (sev : String) :
    calculate_score (v :: axe) pw = calculate_score axe pw
    ∧ count_by_severity (v :: axe) pw sev = count_by_severity axe pw sev := by
  constructor
  · rw [calculate_score_eq, calculate_score_eq, List.map_cons, List.sum_cons]
    have hd : axeDeduction v = 0 := by
      simp [axeDeduction, hv]
    rw [hd, zero_add]
  · rw [count_by_severity_eq, count_by_severity_eq, List.map_cons, List.sum_cons]
    have hz : (if v.impact = some sev then v.nodes else 0) = 0 := by
      split
      · exact hv
      · rfl
    rw [hz, zero_add]

/-- C2 witness: the amended statement instantiated at a concrete zero-node
critical violation in front of one serious violation. -/
theorem C2_zero_node_violation_weighted_zero_witness :
    calculate_score [⟨some "critical", 0⟩, ⟨some "serious", 1⟩] []
      = calculate_score [⟨some "serious", 1⟩] []
    ∧ count_by_severity [⟨some "critical", 0⟩, ⟨some "serious", 1⟩] [] "critical"
      = count_by_severity [⟨some "serious", 1⟩] [] "critical" :=
  C2_zero_node_violation_weighted_zero ⟨some "critical", 0⟩ rfl
    [⟨some "serious", 1⟩] [] "critical"

/-- C3 counterexample: a violation with unrecognized severity "weird" and 3
nodes contributes 0 to the MODERATE total of `count_by_severity`, whereas an
actual "moderate" violation with 3 nodes contributes 3 — unknown severities
are dropped from the classification counts, not folded into MODERATE. -/
theorem C3_counterexample :
    count_by_severity [⟨some "weird", 3⟩] [] "moderate" = 0
    ∧ count_by_severity [⟨some "moderate", 3⟩] [] "moderate" = 3 := by
  exact ⟨rfl, rfl⟩

/-- C3 (amended): a finding with unknown or missing severity receives the
MODERATE deduction weight in `calculate_score` (for both sources), but
`count_by_severity` matches severities by exact string equality, so such a
finding is counted under no tier at all — in particular it is excluded from
the MODERATE totals used by classification. -/
theorem C3_unknown_severity_moderate_in_score_dropped_from_counts
    (imp : String) (n : Nat) (sev : String)
    (axe : List AxeViolation) (pw : List PwCheck)
    (h : imp ≠ "critical" ∧ imp ≠ "serious" ∧ imp ≠ "moderate" ∧ imp ≠ "minor") :
    calculate_score (⟨some imp, n⟩ :: axe) pw
      = calculate_score (⟨some "moderate", n⟩ :: axe) pw
    ∧ calculate_score axe (⟨some imp⟩ :: pw)
      = calculate_score axe (⟨some "moderate"⟩ :: pw)
    ∧ calculate_score (⟨none, n⟩ :: axe) pw
      = calculate_score (⟨some "moderate", n⟩ :: axe) pw
    ∧ (imp ≠ sev →
        count_by_severity (⟨some imp, n⟩ :: axe) pw sev = count_by_severity axe pw sev)
    ∧ (imp ≠ sev →
        count_by_severity axe (⟨some imp⟩ :: pw) sev = count_by_severity axe pw sev)
    ∧ count_by_severity (⟨none, n⟩ :: axe) pw sev = count_by_severity axe pw sev
    ∧ calculate_score axe (⟨none⟩ :: pw)
      = calculate_score axe (⟨some "moderate"⟩ :: pw)
    ∧ count_by_severity axe (⟨none⟩ :: pw) sev = count_by_severity axe pw sev := by
  obtain ⟨h1, h2, h3, h4⟩ := h
  refine ⟨?_, ?_, ?_, ?_, ?_, ?_, ?_, ?_⟩
  · rw [calculate_score_eq, calculate_score_eq]
    have : axeDeduction ⟨some imp, n⟩ = axeDeduction ⟨some "moderate", n⟩ := by
      simp [axeDeduction, axeWeight, h1, h2, h3, h4]
    rw [List.map_cons, List.map_cons, this]
  · rw [calculate_score_eq, calculate_score_eq]
    have : pwDeduction ⟨some imp⟩ = pwDeduction ⟨some "moderate"⟩ := by
      simp [pwDeduction, pwWeight, h1, h2, h3, h4]
    rw [List.map_cons, List.map_cons, this]
  · rw [calculate_score_eq, calculate_score_eq]
    have : axeDeduction ⟨none, n⟩ = axeDeduction ⟨some "moderate", n⟩ := by
      simp [axeDeduction]
    rw [List.map_cons, List.map_cons, this]
  · intro hne
    rw [count_by_severity_eq, count_by_severity_eq, List.map_cons, List.sum_cons]
    have : (if (⟨some imp, n⟩ : AxeViolation).impact = some sev then
        (⟨some imp, n⟩ : AxeViolation).nodes else 0) = 0 := by
      simp [hne]
    rw [this, zero_add]
  · intro hne
    rw [count_by_severity_eq, count_by_severity_eq, List.map_cons, List.sum_cons]
    have : (if (⟨some imp⟩ : PwCheck).severity = some sev then 1 else 0) = 0 := by
      simp [hne]
    rw [this, zero_add]
  · rw [count_by_severity_eq, count_by_severity_eq, List.map_cons, List.sum_cons]
    have : (if (⟨none, n⟩ : AxeViolation).impact = some sev then
        (⟨none, n⟩ : AxeViolation).nodes else 0) = 0 := by
      simp
    rw [this, zero_add]
  · rw [calculate_score_eq, calculate_score_eq]
    have : pwDeduction ⟨none⟩ = pwDeduction ⟨some "moderate"⟩ := by
      simp [pwDeduction]
    rw [List.map_cons, List.map_cons, this]
  · rw [count_by_severity_eq, count_by_severity_eq, List.map_cons, List.sum_cons]
    have : (if (⟨none⟩ : PwCheck).severity = some sev then 1 else 0) = 0 := by
      simp
    rw [this, zero_add]

theorem map_sum_congr (f g : α → Int) (l : List α)
    (h : ∀ x ∈ l, f x = g x) : (l.map f).sum = (l.map g).sum := by
  induction l with
  | nil => rfl
  | cons x xs ih =>
    rw [List.map_cons, List.map_cons, List.sum_cons, List.sum_cons,
      h x (List.mem_cons_self x xs), ih (fun y hy => h y (List.mem_cons_of_mem x hy))]

theorem axeDeduction_eq_spec (v : AxeViolation)
    (hv : v.impact.getD "moderate" ∈ severityTiers) :
    axeDeduction v = spec_rule_deduction (v.impact.getD "moderate") v.nodes := by
  simp only [severityTiers, List.mem_cons, List.not_mem_nil, or_false] at hv
  rcases hv with h | h | h | h <;>
    simp [axeDeduction, axeWeight, spec_rule_deduction, h]

theorem pwDeduction_eq_spec (c : PwCheck)
    (hc : c.severity.getD "moderate" ∈ severityTiers) :
    pwDeduction c = spec_interactive_deduction (c.severity.getD "moderate") := by
  simp only [severityTiers, List.mem_cons, List.not_mem_nil, or_false] at hc
  rcases hc with h | h | h | h <;>
    simp [pwDeduction, pwWeight, spec_interactive_deduction, h]

/-- C3 witness: the amended statement at severity "weird" with 2 nodes and
at an interactive check with the severity key missing, both queried against
the MODERATE tier. -/
theorem C3_unknown_severity_witness :
    calculate_score [⟨some "weird", 2⟩] [] = calculate_score [⟨some "moderate", 2⟩] []
    ∧ count_by_severity [⟨some "weird", 2⟩] [] "moderate"
      = count_by_severity [] [] "moderate"
    ∧ calculate_score [] [⟨none⟩] = calculate_score [] [⟨some "moderate"⟩]
    ∧ count_by_severity [] [⟨none⟩] "moderate" = count_by_severity [] [] "moderate" := by
  have h := C3_unknown_severity_moderate_in_score_dropped_from_counts
    "weird" 2 "moderate" [] [] (by decide)
  obtain ⟨ha, _, _, hc, _, _, hp, hq⟩ := h
  exact ⟨ha, hc (by decide), hp, hq⟩

/-- C5: when every finding's (defaulted) severity is one of the four tiers,
`calculate_score` equals 100 minus the spec's deductions — weight ×
min(instance_count, 5) per rule-engine violation, flat weight per
interactive check — clamped to [0,100]; and the score is invariant under any
reordering of either finding list. -/
theorem C5_score_formula_and_permutation_invariance
    (axe : List AxeViolation) (pw : List PwCheck)
    (haxe : ∀ v ∈ axe, v.impact.getD "moderate" ∈ severityTiers)
    (hpw : ∀ c ∈ pw, c.severity.getD "moderate" ∈ severityTiers) :
    calculate_score axe pw
      = max 0 (min 100 (100 -
          ((axe.map (fun v => spec_rule_deduction (v.impact.getD "moderate") v.nodes)).sum
           + (pw.map (fun c => spec_interactive_deduction (c.severity.getD "moderate"))).sum)))
    ∧ ∀ axe' pw', axe.Perm axe' → pw.Perm pw' →
        calculate_score axe pw = calculate_score axe' pw' := by
  constructor
  · rw [calculate_score_eq,
      map_sum_congr axeDeduction
        (fun v => spec_rule_deduction (v.impact.getD "moderate") v.nodes) axe
        (fun v hv => axeDeduction_eq_spec v (haxe v hv)),
      map_sum_congr pwDeduction
        (fun c => spec_interactive_deduction (c.severity.getD "moderate")) pw
        (fun c hc => pwDeduction_eq_spec c (hpw c hc))]
  · intro axe' pw' ha hp
    rw [calculate_score_eq, calculate_score_eq,
      (ha.map axeDeduction).sum_eq, (hp.map pwDeduction).sum_eq]

/-- C5 witness: the spec's end-to-end example — one CRITICAL rule-engine
violation over 6 nodes plus one SERIOUS interactive check and one MINOR
violation — evaluated concretely, and a concrete reordering of the violation
list leaving the score unchanged. -/
theorem C5_score_formula_witness :
    calculate_score [⟨some "critical", 6⟩, ⟨some "minor", 1⟩] [⟨some "serious"⟩]
      = max 0 (min 100 (100 -
          (([(⟨some "critical", 6⟩ : AxeViolation), ⟨some "minor", 1⟩].map
              (fun v => spec_rule_deduction (v.impact.getD "moderate") v.nodes)).sum
           + ([(⟨some "serious"⟩ : PwCheck)].map
              (fun c => spec_interactive_deduction (c.severity.getD "moderate"))).sum)))
    ∧ calculate_score [⟨some "critical", 6⟩, ⟨some "minor", 1⟩] [⟨some "serious"⟩]
      = calculate_score [⟨some "minor", 1⟩, ⟨some "critical", 6⟩] [⟨some "serious"⟩] := by
  have h := C5_score_formula_and_permutation_invariance
    [⟨some "critical", 6⟩, ⟨some "minor", 1⟩] [⟨some "serious"⟩]
    (by decide) (by decide)
  exact ⟨h.1, h.2 [⟨some "minor", 1⟩, ⟨some "critical", 6⟩] [⟨some "serious"⟩]
    (List.Perm.swap _ _ _) (List.Perm.refl _)⟩

/-- C4 (code bug in the source): download tokens are not one-time — after a
successful resolution of "tok_one" the token mapping is left in place, and a
second `get_session_by_token` on the very same token succeeds again instead
of returning not-found. -/
theorem C4_token_resolves_repeatedly_after_download :
    (get_session_by_token completedDemoState 60 "tok_one").1 = some completedSession
    ∧ (get_session_by_token
        (get_session_by_token completedDemoState 60 "tok_one").2 120 "tok_one").1
      = some completedSession := by
  exact ⟨rfl, rfl⟩

/-- C6 counterexample: in demo mode, `verify_session` on an unknown session
id returns the not-found response dict, which carries no "demo_mode" key at
all (modeled as the field being `none`). -/
theorem C6_counterexample :
    emptyDemoState.demo_mode = true
    ∧ (verify_session emptyDemoState 0 "pay_unknown" "tok_x" true).1.demo_mode = none := by
  exact ⟨rfl, rfl⟩

/-- C6 (amended): in demo mode every `create_session` response and every
`verify_session` response for a session that exists carries
demo_mode = true; the unknown-session branch of `verify_session` is the one
exception — its response omits the demo_mode field. -/
theorem C6_demo_mode_flag (st : PaymentState) (now : Nat)
    (sid url email scan_id purl : String) (amount : Nat)
    (sid2 tok : String) (g : Bool) (s : Session)
    (hd : st.demo_mode = true)
    (hs : alookup sid2 st.sessions = some s) (hsd : s.demo_mode = true) :
    (create_session st now sid url email scan_id purl amount).1.demo_mode = true
    ∧ (verify_session st now sid2 tok g).1.demo_mode = some true := by
  constructor
  · simp [create_session, cleanup_expired, hd]
  · simp only [verify_session, hs]
    split
    · simp [hsd]
    · simp [hd, hsd]

/-- C6 witness: the amended statement at a concrete demo-mode state holding
one pending session. -/
theorem C6_demo_mode_flag_witness :
    (create_session pendingDemoState 5 "pay_q" "https://x.y" "e@f.g" "scan_9"
        "https://pay.example/q" 79).1.demo_mode = true
    ∧ (verify_session pendingDemoState 5 "pay_p" "tok_w" true).1.demo_mode = some true :=
  C6_demo_mode_flag pendingDemoState 5 "pay_q" "https://x.y" "e@f.g" "scan_9"
    "https://pay.example/q" 79 "pay_p" "tok_w" true pendingSession rfl rfl rfl

/-- C7 counterexample: at exactly 1800 s (the 30-minute mark, hence not
*below* 30 minutes) after completion, `get_session_by_token` still returns
the session — the source expires only when elapsed is strictly greater than
1800 s. -/
theorem C7_counterexample :
    completedSession.completed_at = some 0
    ∧ (get_session_by_token completedDemoState 1800 "tok_one").1 = some completedSession := by
  exact ⟨rfl, rfl⟩

/-- C7 (amended): for a mapped token of a COMPLETED session with
completed_at = c, resolution at time `now` succeeds (returning the session
and leaving the state untouched) iff elapsed ≤ 1800 s — boundary inclusive —
and when elapsed > 1800 s it returns not-found, removes the token mapping,
and every later resolve of that token also returns not-found. -/
theorem C7_token_window (st : PaymentState) (now : Nat) (tok sid : String)
    (s : Session) (c : Nat)
    (ht : alookup tok st.tokens = some sid)
    (hs : alookup sid st.sessions = some s)
    (hstat : s.status = "completed")
    (hc : s.completed_at = some c) :
    (now - c ≤ 1800 → get_session_by_token st now tok = (some s, st))
    ∧ (now - c > 1800 →
        (get_session_by_token st now tok).1 = none
        ∧ (get_session_by_token st now tok).2.tokens = eraseKey tok st.tokens
        ∧ ∀ now2, (get_session_by_token (get_session_by_token st now tok).2 now2 tok).1
            = none) := by
  have hne : ¬ s.status ≠ "completed" := by simp [hstat]
  constructor
  · intro hle
    simp only [get_session_by_token, ht, hs, hc, if_neg hne]
    rw [if_neg (by omega : ¬ now - c > 1800)]
  · intro hgt
    have hexp : get_session_by_token st now tok
        = (none, { st with tokens := eraseKey tok st.tokens }) := by
      simp only [get_session_by_token, ht, hs, hc, if_neg hne]
      rw [if_pos hgt]
    refine ⟨by rw [hexp], by rw [hexp], ?_⟩
    intro now2
    rw [hexp]
    simp only [get_session_by_token, alookup_eraseKey_self]

/-- C7 witness: the amended statement at the spec's own boundary examples —
resolution 1740 s (29 min) after completion succeeds, resolution 1860 s
(31 min) after completion fails with not-found. -/
theorem C7_token_window_witness :
    get_session_by_token completedDemoState 1740 "tok_one"
      = (some completedSession, completedDemoState)
    ∧ (get_session_by_token completedDemoState 1860 "tok_one").1 = none := by
  have h29 := C7_token_window completedDemoState 1740 "tok_one" "pay_aaaa"
    completedSession 0 rfl rfl rfl rfl
  have h31 := C7_token_window completedDemoState 1860 "tok_one" "pay_aaaa"
    completedSession 0 rfl rfl rfl rfl
  exact ⟨h29.1 (by decide), (h31.2 (by decide)).1⟩

/-- C8: `verify_session` on a session that is already COMPLETED (with its
non-empty token t) returns that existing token and leaves the whole state
unchanged, so a second verification call also returns t — no second token is
ever minted. -/
theorem C8_verify_idempotent_on_completed (st : PaymentState)
    (now now2 : Nat) (sid tok tok2 : String) (g g2 : Bool) (s : Session) (t : String)
    (hs : alookup sid st.sessions = some s)
    (hstat : s.status = "completed") (ht : s.pdf_token = some t) (hne : t ≠ "") :
    verify_session st now sid tok g
      = ({ status := "completed", pdf_token := some t, email := s.email,
           scan_url := s.url, demo_mode := some s.demo_mode }, st)
    ∧ (verify_session st now2 sid tok2 g2).1.pdf_token = some t := by
  have hcond : s.status = "completed" ∧ strTruthy s.pdf_token = true := by
    refine ⟨hstat, ?_⟩
    simp [strTruthy, ht, hne]
  have h1 : ∀ (n : Nat) (tk : String) (gg : Bool),
      verify_session st n sid tk gg
        = ({ status := "completed", pdf_token := some t, email := s.email,
             scan_url := s.url, demo_mode := some s.demo_mode }, st) := by
    intro n tk gg
    have hcond2 : s.status = "completed" ∧ strTruthy (some t) = true := by
      refine ⟨hstat, ?_⟩
      simp [strTruthy, hne]
    simp only [verify_session, hs, ht]
    rw [if_pos hcond2]
  exact ⟨h1 now tok g, by rw [h1 now2 tok2 g2]⟩

/-- C8 witness: two verification calls on the concrete completed demo
session both return "tok_one" and do not touch the store. -/
theorem C8_verify_idempotent_witness :
    verify_session completedDemoState 100 "pay_aaaa" "tok_new" true
      = ({ status := "completed", pdf_token := some "tok_one",
           email := completedSession.email, scan_url := completedSession.url,
           demo_mode := some completedSession.demo_mode }, completedDemoState)
    ∧ (verify_session completedDemoState 200 "pay_aaaa" "tok_new2" false).1.pdf_token
      = some "tok_one" :=
  C8_verify_idempotent_on_completed completedDemoState 100 200 "pay_aaaa"
    "tok_new" "tok_new2" true false completedSession "tok_one" rfl rfl rfl (by decide)

/-- C9: a success webhook (status code "1") for a session that is already
COMPLETED is a no-op returning `true`: the state — including the token map
and the session's completed_at — is unchanged, and replaying the same
notification again is the same no-op. -/
theorem C9_webhook_idempotent_on_completed (st : PaymentState)
    (now now2 : Nat) (cid tok tok2 : String) (s : Session)
    (hcid : cid ≠ "")
    (hs : alookup cid st.sessions = some s)
    (hstat : s.status = "completed") :
    handle_webhook st now cid "1" tok = (true, st)
    ∧ handle_webhook st now2 cid "1" tok2 = (true, st) := by
  have h1 : ∀ (n : Nat) (tk : String), handle_webhook st n cid "1" tk = (true, st) := by
    intro n tk
    simp [handle_webhook, hcid, hs, hstat]
  exact ⟨h1 now tok, h1 now2 tok2⟩

/-- C9 witness: replaying the success webhook twice on the concrete
completed demo session leaves the state (one token) intact both times. -/
theorem C9_webhook_idempotent_witness :
    handle_webhook completedDemoState 50 "pay_aaaa" "1" "tok_dup"
      = (true, completedDemoState)
    ∧ handle_webhook completedDemoState 70 "pay_aaaa" "1" "tok_dup2"
      = (true, completedDemoState) :=
  C9_webhook_idempotent_on_completed completedDemoState 50 70 "pay_aaaa"
    "tok_dup" "tok_dup2" completedSession (by decide) rfl rfl

/-- C10: the store invariant — pdf_token is non-null iff the session is
completed, and completed_at is non-null iff the session is completed — is
preserved by `create_session`, `verify_session`, `handle_webhook` and the
expiry sweep `cleanup_expired`. -/
theorem C10_store_invariant_preserved (st : PaymentState) (hinv : StoreInv st)
    (now : Nat) (sid url email scan_id purl : String) (amount : Nat)
    (sid2 tok : String) (g : Bool) (cid code tok2 : String) :
    StoreInv (create_session st now sid url email scan_id purl amount).2
    ∧ StoreInv (verify_session st now sid2 tok g).2
    ∧ StoreInv (handle_webhook st now cid code tok2).2
    ∧ StoreInv (cleanup_expired now st) := by
  have hclean : StoreInv (cleanup_expired now st) := by
    intro p hp
    exact hinv p (List.mem_of_mem_filter hp)
  refine ⟨?_, ?_, ?_, hclean⟩
  · exact storeInv_insert _ _ _ hclean ⟨by simp, by simp⟩
  · cases heq : alookup sid2 st.sessions with
    | none => simpa [verify_session, heq] using hinv
    | some s =>
      simp only [verify_session, heq]
      split
      · exact hinv
      · split
        · exact storeInv_insert _ _ _ hinv ⟨by simp, by simp⟩
        · split
          · exact storeInv_insert _ _ _ hinv ⟨by simp, by simp⟩
          · exact hinv
  · by_cases hcid : cid = ""
    · simpa [handle_webhook, hcid] using hinv
    · cases heq : alookup cid st.sessions with
      | none => simpa [handle_webhook, hcid, heq] using hinv
      | some s =>
        simp only [handle_webhook, if_neg hcid, heq]
        split
        · split
          · exact storeInv_insert _ _ _ hinv ⟨by simp, by simp⟩
          · exact hinv
        · exact hinv

/-- C10 witness: the invariant holds after each operation applied to the
concrete demo store holding one pending session. -/
theorem C10_store_invariant_witness :
    StoreInv (create_session pendingDemoState 10 "pay_q" "https://x.y" "e@f.g"
        "scan_9" "https://pay.example/q" 79).2
    ∧ StoreInv (verify_session pendingDemoState 10 "pay_p" "tok_w" true).2
    ∧ StoreInv (handle_webhook pendingDemoState 10 "pay_p" "1" "tok_x").2
    ∧ StoreInv (cleanup_expired 10 pendingDemoState) :=
  C10_store_invariant_preserved pendingDemoState (by decide) 10 "pay_q"
    "https://x.y" "e@f.g" "scan_9" "https://pay.example/q" 79 "pay_p" "tok_w"
    true "pay_p" "1" "tok_x"
